import Mathlib

/-!
Verification of the `xopen` library (transparent opening of compressed files).

This file gives a shallow embedding of `src/xopen/__init__.py`:

* format detection (`_detect_format_from_extension`, `_detect_format_from_content`),
* the gzip backend selection chain (`_open_gz` with the `PipedIGzip*` /
  `PipedGzip*` / in-process `gzip.open` tiers),
* the piped reader/writer construction and `close` life-cycle, and
* the public `xopen` entry point (mode normalization, the `-` special path,
  dispatch to the per-format openers).

Python exceptions are modelled with `Except`; observable side effects
(file-content sniffing, process spawns, the igzip correctness probe, opening
of the destination file and the null sink) are collected in an explicit
effect trace, so that claims of the form "never reads the file" or "no
subprocess is spawned" become statements about the trace.

The environment (`Env`) captures the facts about the outside world the code
branches on: which external programs are installed, whether the installed
igzip passes the concatenated-members probe, whether the target is a
readable regular file and which magic bytes it starts with, and the CPU
count used for the default thread count.
-/

namespace Xopen

/-- Compression format tag, the `"gz"` / `"bz2"` / `"xz"` strings of the source. -/
inductive Fmt
  | gz
  | bz2
  | xz
deriving DecidableEq, Repr

/-- The three external program names the source ever passes to `Popen`:
`"pigz"`, `"igzip"` and `"gzip"`. -/
inductive Prog
  | pigz
  | igzip
  | gzipExe
deriving DecidableEq, Repr

/-- Error messages of the `ValueError`s raised by the source, by site:
`modeNotSupported` is `xopen`'s "Mode '{}' not supported";
`writerModeInvalid` and `readerModeInvalid` are the mode checks of
`PipedCompressionWriter.__init__` / `PipedCompressionReader.__init__`;
`levelBetween1and9` is `PipedGzipWriter.__init__`'s
"compresslevel must be between 1 and 9"; `levelBetween0and3` is
`PipedIGzipWriter.__init__`'s "compresslevel must be between 0 and 3";
`igzipNoConcat` is `PipedIGzipReader.__init__`'s message about igzip not
supporting concatenated gzip files. -/
inductive ErrMsg
  | modeNotSupported
  | writerModeInvalid
  | readerModeInvalid
  | levelBetween1and9
  | levelBetween0and3
  | igzipNoConcat
deriving DecidableEq, Repr

/-- Python exceptions observable from the embedded fragment:
`valueError` for `ValueError`, `keyError c` for the `KeyError` raised by
`dict(r=..., w=...)[mode[0]]`, `fileNotFound` for `FileNotFoundError`
(program or file missing), `osError` for the `OSError` raised at `close`
when the subprocess exits with a nonzero code. -/
inductive PyErr
  | valueError (m : ErrMsg)
  | keyError (k : Char)
  | fileNotFound
  | osError
deriving DecidableEq, Repr

/-- Observable effects of an open call:
`sniffStat` — `_detect_format_from_content` ran (the `os.stat` probe);
`readBytes` — it opened the target and read its first 6 bytes;
`probeRun` — `_can_read_concatenated_gz` actually ran its test subprocess;
`spawn p` — a compressor/decompressor subprocess for program `p` was spawned;
`openOutfile` / `openDevnull` — the writer opened the destination file / the
null sink; `closeOutfile` / `closeDevnull` — it closed them again after a
failed spawn. -/
inductive Effect
  | sniffStat
  | readBytes
  | probeRun
  | spawn (p : Prog)
  | openOutfile
  | openDevnull
  | closeOutfile
  | closeDevnull
deriving DecidableEq, Repr

/-- The stream handle `xopen` returns, by construction site:
`stdStream` — the non-closing wrapper over stdin/stdout for path `-`;
`pipedReader p t m` — a `PipedCompressionReader` on program `p` with the
resolved thread argument `t`;
`pipedWriter p l t m` — a `PipedCompressionWriter` on program `p` with
compression level `l` and resolved thread count `t`;
`gzipInProcess m l` — in-process `gzip.open` (`l` is the `compresslevel`
argument passed; `none` means the call did not pass one, leaving the
codec's own default of 9);
`bz2InProcess` / `xzInProcess` — in-process `bz2.open` / `lzma.open`;
`plainFile` — a plain `open`. -/
inductive Handle
  | stdStream (mode : List Char)
  | pipedReader (p : Prog) (threads : Option Int) (mode : List Char)
  | pipedWriter (p : Prog) (compresslevel : Option Int) (threads : Int) (mode : List Char)
  | gzipInProcess (mode : List Char) (compresslevel : Option Int)
  | bz2InProcess (mode : List Char)
  | xzInProcess (mode : List Char)
  | plainFile (mode : List Char)
deriving DecidableEq, Repr

/-- Facts about the outside world the embedded code branches on. -/
structure Env where
  igzipInstalled : Bool
  pigzInstalled : Bool
  gzipInstalled : Bool
  /-- result of the concatenated-members decode test when igzip is present
  (`subprocess.run` succeeded and its stdout was the full `b"ABCDEFGH"`). -/
  igzipConcatOk : Bool
  /-- `os.stat` (and the subsequent `open`) on the target succeed. -/
  statOk : Bool
  /-- the target is a regular file (`stat.S_ISREG`). -/
  isRegular : Bool
  /-- classification of the first 6 bytes of the target against the three
  magic numbers (`1F 8B`→gz, `42 5A 68`→bz2, `FD 37 7A 58 5A 00`→xz);
  `none` when no magic matches. -/
  magic : Option Fmt
  /-- `_available_cpu_count()`. -/
  cpuCount : Int
deriving DecidableEq, Repr

/-- Whether an external program can be found by `Popen` / `subprocess.run`. -/
def installed (env : Env) : Prog → Bool
  | .pigz => env.pigzInstalled
  | .igzip => env.igzipInstalled
  | .gzipExe => env.gzipInstalled

/-- Mode strings, as character lists. -/
def mode_r : List Char := ['r']

def mode_w : List Char := ['w']

def mode_a : List Char := ['a']

def mode_rt : List Char := ['r', 't']

def mode_rb : List Char := ['r', 'b']

def mode_wt : List Char := ['w', 't']

def mode_wb : List Char := ['w', 'b']

def mode_at : List Char := ['a', 't']

def mode_ab : List Char := ['a', 'b']

/-- The six legal modes of `xopen` after normalization
(`('rt', 'rb', 'wt', 'wb', 'at', 'ab')`, line 476). -/
def MODES : List (List Char) := [mode_rt, mode_rb, mode_wt, mode_wb, mode_at, mode_ab]

/-- The modes `PipedCompressionWriter.__init__` accepts
(`('w', 'wt', 'wb', 'a', 'at', 'ab')`, line 128). -/
def PIPE_WRITE_MODES : List (List Char) := [mode_w, mode_wt, mode_wb, mode_a, mode_at, mode_ab]

/-- The modes `PipedCompressionReader.__init__` accepts
(`('r', 'rt', 'rb')`, line 208). -/
def PIPE_READ_MODES : List (List Char) := [mode_r, mode_rt, mode_rb]

/-- The special path `'-'`. -/
def dash : List Char := ['-']

/-- Python's `c in mode` on a string. -/
def hasChar (c : Char) (m : List Char) : Bool := m.contains c

/-- Lines 474-475 of `xopen`: `if mode in ('r', 'w', 'a'): mode += 't'`. -/
def normalize_mode (m : List Char) : List Char :=
  if m = mode_r ∨ m = mode_w ∨ m = mode_a then m ++ ['t'] else m

/-- The suffixes recognized by `_detect_format_from_extension`. -/
def suffix_gz : List Char := ['.', 'g', 'z']

def suffix_bz2 : List Char := ['.', 'b', 'z', '2']

def suffix_xz : List Char := ['.', 'x', 'z']

/-- Lines 430-442: `_detect_format_from_extension`, a chain of
`filename.endswith(...)` tests, `.bz2` first, then `.xz`, then `.gz`. -/
def detect_format_from_extension (filename : List Char) : Option Fmt :=
  if suffix_bz2 <:+ filename then some .bz2
  else if suffix_xz <:+ filename then some .xz
  else if suffix_gz <:+ filename then some .gz
  else none

/-- Lines 408-427: `_detect_format_from_content`. `os.stat` is attempted
(effect `sniffStat`); on `OSError` the function returns `None`. For a
regular file the first 6 bytes are read (effect `readBytes`) and matched
against the three magic numbers, which the environment pre-classifies as
`env.magic`. Non-regular files are skipped. -/
def detect_format_from_content (env : Env) : Option Fmt × List Effect :=
  if env.statOk then
    if env.isRegular then (env.magic, [.sniffStat, .readBytes])
    else (none, [.sniffStat])
  else (none, [.sniffStat])

/-- Lines 71-91: `_can_read_concatenated_gz(program)`. When the program is
missing, `subprocess.run` raises `FileNotFoundError`, which the function
does not catch (it only catches `CalledProcessError`). Otherwise the probe
subprocess runs (effect `probeRun`); a failing exit code or wrong output
are both folded into `env.igzipConcatOk = false`. -/
def can_read_concatenated_gz (env : Env) (p : Prog) : Except PyErr Bool × List Effect :=
  if installed env p then (.ok env.igzipConcatOk, [.probeRun])
  else (.error .fileNotFound, [])

/-- Lines 113-175: `PipedCompressionWriter.__init__`. The mode is checked
first; then the destination file and the null sink are opened, the default
thread count `min(cpu_count, 4)` is resolved when `threads is None`, and
the process is spawned. A missing program makes `Popen` raise
`FileNotFoundError`; the `except OSError` handler closes the two files and
re-raises. -/
def PipedCompressionWriter (env : Env) (p : Prog) (mode : List Char)
    (compresslevel : Option Int) ( _threadsFlag : Bool) (threads : Option Int) :
    Except PyErr Handle × List Effect :=
  if mode ∈ PIPE_WRITE_MODES then
    let t := threads.getD (min env.cpuCount 4)
    if installed env p then
      (.ok (.pipedWriter p compresslevel t mode), [.openOutfile, .openDevnull, .spawn p])
    else
      (.error .fileNotFound, [.openOutfile, .openDevnull, .closeOutfile, .closeDevnull])
  else (.error (.valueError .writerModeInvalid), [])

/-- Lines 199-235: `PipedCompressionReader.__init__`. The mode is checked
first; when a threads flag is present and `threads is None`, the thread
count defaults to 1; then the process is spawned (a missing program raises
`FileNotFoundError`). -/
def PipedCompressionReader (env : Env) (p : Prog) (mode : List Char)
    (threadsFlag : Bool) (threads : Option Int) :
    Except PyErr Handle × List Effect :=
  if mode ∈ PIPE_READ_MODES then
    let t := if threadsFlag then some (threads.getD 1) else threads
    if installed env p then (.ok (.pipedReader p t mode), [.spawn p])
    else (.error .fileNotFound, [])
  else (.error (.valueError .readerModeInvalid), [])

/-- Lines 300-311: `PipedGzipReader` tries pigz (with the `-p` threads
flag) and falls back to the system gzip program on `FileNotFoundError`. -/
def PipedGzipReader (env : Env) (mode : List Char) (threads : Option Int) :
    Except PyErr Handle × List Effect :=
  match PipedCompressionReader env .pigz mode true threads with
  | (.error .fileNotFound, e) =>
      ((PipedCompressionReader env .gzipExe mode false threads).1,
        e ++ (PipedCompressionReader env .gzipExe mode false threads).2)
  | r => r

/-- Lines 323-326: the body of `PipedGzipWriter.__init__` after its level
check — try pigz (with the `-p` threads flag), and fall back to the
system gzip program on `FileNotFoundError`. -/
def gzip_writer_chain (env : Env) (mode : List Char) (compresslevel : Option Int)
    (threads : Option Int) : Except PyErr Handle × List Effect :=
  match PipedCompressionWriter env .pigz mode compresslevel true threads with
  | (.error .fileNotFound, e) =>
      ((PipedCompressionWriter env .gzipExe mode compresslevel false threads).1,
        e ++ (PipedCompressionWriter env .gzipExe mode compresslevel false threads).2)
  | r => r

/-- Lines 314-326: `PipedGzipWriter` validates
`compresslevel in range(1, 10)` before anything else, then runs the
pigz-then-gzip chain. -/
def PipedGzipWriter (env : Env) (mode : List Char) (compresslevel : Option Int)
    (threads : Option Int) : Except PyErr Handle × List Effect :=
  match compresslevel with
  | some l =>
      if l < 1 ∨ 9 < l then (.error (.valueError .levelBetween1and9), [])
      else gzip_writer_chain env mode compresslevel threads
  | none => gzip_writer_chain env mode compresslevel threads

/-- Lines 329-342: `PipedIGzipReader` first runs the concatenated-gz probe;
a missing igzip surfaces as `FileNotFoundError` from inside the probe, a
failed probe raises `ValueError`, and only a passing probe constructs the
reader (no threads flag). -/
def PipedIGzipReader (env : Env) (mode : List Char) :
    Except PyErr Handle × List Effect :=
  match can_read_concatenated_gz env .igzip with
  | (.error e, eff) => (.error e, eff)
  | (.ok false, eff) => (.error (.valueError .igzipNoConcat), eff)
  | (.ok true, eff) =>
      let r := PipedCompressionReader env .igzip mode false none
      (r.1, eff ++ r.2)

/-- Lines 345-362: `PipedIGzipWriter` validates
`compresslevel in range(0, 4)` before anything else, then constructs the
writer on igzip (no threads flag, no thread count). -/
def PipedIGzipWriter (env : Env) (mode : List Char) (compresslevel : Option Int) :
    Except PyErr Handle × List Effect :=
  match compresslevel with
  | some l =>
      if l < 0 ∨ 3 < l then (.error (.valueError .levelBetween0and3), [])
      else PipedCompressionWriter env .igzip mode compresslevel false none
  | none => PipedCompressionWriter env .igzip mode compresslevel false none

/-- Lines 383-389 of `_open_gz`: the read attempt with external backends —
try `PipedIGzipReader`, and on its `FileNotFoundError` or `ValueError`
fall back to `PipedGzipReader`. -/
def gz_read_attempt (env : Env) (mode : List Char) (threads : Option Int) :
    Except PyErr Handle × List Effect :=
  match PipedIGzipReader env mode with
  | (.error .fileNotFound, e) =>
      ((PipedGzipReader env mode threads).1, e ++ (PipedGzipReader env mode threads).2)
  | (.error (.valueError _), e) =>
      ((PipedGzipReader env mode threads).1, e ++ (PipedGzipReader env mode threads).2)
  | r => r

/-- Lines 390-395 of `_open_gz`: the write attempt with external backends —
try `PipedIGzipWriter`, and on its `FileNotFoundError` or `ValueError`
fall back to `PipedGzipWriter`. -/
def gz_write_attempt (env : Env) (mode : List Char) (compresslevel : Option Int)
    (threads : Option Int) : Except PyErr Handle × List Effect :=
  match PipedIGzipWriter env mode compresslevel with
  | (.error .fileNotFound, e) =>
      ((PipedGzipWriter env mode compresslevel threads).1,
        e ++ (PipedGzipWriter env mode compresslevel threads).2)
  | (.error (.valueError _), e) =>
      ((PipedGzipWriter env mode compresslevel threads).1,
        e ++ (PipedGzipWriter env mode compresslevel threads).2)
  | r => r

/-- Lines 399-405 of `_open_gz`: the in-process `gzip.open` fallthrough.
The reader passes no compression level; the writer passes
`compresslevel=6 if compresslevel is None else compresslevel`, overriding
the codec's own default of 9. -/
def gz_in_process (mode : List Char) (compresslevel : Option Int) :
    Except PyErr Handle × List Effect :=
  if hasChar 'r' mode then (.ok (.gzipInProcess mode none), [])
  else (.ok (.gzipInProcess mode (some (compresslevel.getD 6))), [])

/-- Lines 380-405: `_open_gz`. When `threads != 0`, the external-backend
attempt (read or write according to `'r' in mode`) runs first; a
`FileNotFoundError` escaping it is swallowed and the in-process
`gzip.open` fallthrough is used; any other outcome is returned as is.
When `threads == 0` the in-process codec is used directly. -/
def open_gz (env : Env) (mode : List Char) (compresslevel : Option Int)
    (threads : Option Int) : Except PyErr Handle × List Effect :=
  if threads ≠ some 0 then
    match (if hasChar 'r' mode then gz_read_attempt env mode threads
           else gz_write_attempt env mode compresslevel threads) with
    | (.error .fileNotFound, e) =>
        ((gz_in_process mode compresslevel).1, e ++ (gz_in_process mode compresslevel).2)
    | r => r
  else gz_in_process mode compresslevel

/-- Lines 365-369: `_open_stdin_or_out` looks the first mode character up
in `dict(r=sys.stdin, w=sys.stdout)`; any first character other than
`'r'` or `'w'` raises `KeyError`. The returned stream does not close the
underlying global stream. (An empty mode cannot reach this function; it is
mapped to a `KeyError` on a blank to keep the function total.) -/
def open_stdin_or_out (mode : List Char) : Except PyErr Handle :=
  match mode with
  | [] => .error (.keyError ' ')
  | c :: rest =>
      if c = 'r' ∨ c = 'w' then .ok (.stdStream (c :: rest))
      else .error (.keyError c)

/-- Lines 372-373: `_open_bz2` delegates to `bz2.open(filename, mode)`
with no mode restriction of its own. The collaborator `bz2.open` of
CPython 3 accepts read, write and append modes (text or binary); in
particular append mode succeeds and produces a multi-stream bz2 file. -/
def open_bz2 (mode : List Char) : Except PyErr Handle := .ok (.bz2InProcess mode)

/-- Lines 376-377: `_open_xz` delegates to `lzma.open(filename, mode)`
(the `lzma` module is assumed importable). -/
def open_xz (mode : List Char) : Except PyErr Handle := .ok (.xzInProcess mode)

/-- Lines 445-494: the public `xopen`. Mode normalization and validation
come first; path `-` goes to `_open_stdin_or_out`; otherwise the format is
detected from the extension, content sniffing runs only when that yields
nothing and `"w" not in mode`, and the call dispatches on the detected
format. -/
def xopen (env : Env) (filename : List Char) (mode0 : List Char)
    (compresslevel : Option Int) (threads : Option Int) :
    Except PyErr Handle × List Effect :=
  if normalize_mode mode0 ∈ MODES then
    if filename = dash then (open_stdin_or_out (normalize_mode mode0), [])
    else
      match (if detect_format_from_extension filename = none
                ∧ hasChar 'w' (normalize_mode mode0) = false
             then detect_format_from_content env
             else (detect_format_from_extension filename, [])) with
      | (some .gz, eff) =>
          ((open_gz env (normalize_mode mode0) compresslevel threads).1,
            eff ++ (open_gz env (normalize_mode mode0) compresslevel threads).2)
      | (some .xz, eff) => (open_xz (normalize_mode mode0), eff)
      | (some .bz2, eff) => (open_bz2 (normalize_mode mode0), eff)
      | (none, eff) => (.ok (.plainFile (normalize_mode mode0)), eff)
  else (.error (.valueError .modeNotSupported), [])

/-! ### Close life-cycle of the piped streams -/

/-- State of a `PipedCompressionWriter` relevant to `close` (lines 180-190):
the `self.closed` flag and the exit code `self.process.wait()` will report. -/
structure WriterState where
  closed : Bool
  retcode : Int
deriving DecidableEq, Repr

/-- State of a `PipedCompressionReader` relevant to `close` (lines 237-251):
the `self.closed` flag, whether the process is still running when `close`
polls it, and the exit code observed once it has exited (negative values
are `-signal`; SIGTERM is 15). -/
structure ReaderState where
  closed : Bool
  running : Bool
  retcode : Int
deriving DecidableEq, Repr

/-- Side effects of the `close` methods: closing the pipe wrapped as
`self._file`, waiting on / polling / terminating the process, closing the
destination file, the null sink and the captured-stderr wrapper. -/
inductive CloseEffect
  | closeInner
  | waitProc
  | pollProc
  | terminateProc
  | closeOutfile
  | closeDevnull
  | closeStderr
deriving DecidableEq, Repr

/-- Lines 180-190: `PipedCompressionWriter.close`. A second call returns at
the `if self.closed: return` guard. Otherwise the flag is set, the pipe is
closed, the process is waited on, the destination file and null sink are
closed, and a nonzero exit code raises `OSError`. -/
def writer_close (s : WriterState) : WriterState × List CloseEffect × Option PyErr :=
  if s.closed then (s, [], none)
  else
    ({ s with closed := true },
     [.closeInner, .waitProc, .closeOutfile, .closeDevnull],
     if s.retcode = 0 then none else some .osError)

/-- Lines 237-251 with 259-273: `PipedCompressionReader.close`. A second
call returns at the `if self.closed: return` guard. Otherwise the flag is
set, the process is polled and, if still running, terminated (in which
case a `-SIGTERM` exit code is tolerated), waited on, the pipe closed, and
`_raise_if_error` re-checks the exit code: on a bad code it closes the
pipe and stderr again and raises `OSError` (skipping the final
`self._stderr.close()`), otherwise stderr is closed normally. -/
def reader_close (s : ReaderState) : ReaderState × List CloseEffect × Option PyErr :=
  if s.closed then (s, [], none)
  else
    let allowSigterm := s.running
    let bad : Bool := decide (s.retcode ≠ 0 ∧ ¬(allowSigterm ∧ s.retcode = -15))
    ({ s with closed := true, running := false },
     [CloseEffect.pollProc] ++ (if s.running then [CloseEffect.terminateProc] else [])
       ++ [CloseEffect.waitProc, CloseEffect.closeInner]
       ++ (if bad then [CloseEffect.closeInner, CloseEffect.closeStderr]
           else [CloseEffect.closeStderr]),
     if bad then some .osError else none)

/-! ### Helper definitions for the claims -/

/-- Effects that read the target file's existing content
(`_detect_format_from_content`'s stat probe and 6-byte read). -/
def isContentProbe : Effect → Bool
  | .sniffStat => true
  | .readBytes => true
  | _ => false

/-- Number of runs of the igzip correctness probe in an effect trace. -/
def probeRuns (l : List Effect) : Nat := l.countP (fun e => e == Effect.probeRun)

/-- A fully-stocked environment: igzip, pigz and gzip installed, igzip
passes the concatenated-members probe, the target is a readable regular
file whose first bytes are the gzip magic, 8 CPUs. -/
def envFull : Env :=
  { igzipInstalled := true, pigzInstalled := true, gzipInstalled := true,
    igzipConcatOk := true, statOk := true, isRegular := true,
    magic := some .gz, cpuCount := 8 }

/-- Sample file names. -/
def fgz : List Char := ['f', '.', 'g', 'z']

def fbz2 : List Char := ['f', '.', 'b', 'z', '2']

def fData : List Char := ['d', 'a', 't', 'a']

/-! ### Facts about extension detection -/

/-- A filename ending in `.bz2` is detected as bz2. -/
lemma detect_bz2_of_suffix {f : List Char} (h : suffix_bz2 <:+ f) :
    detect_format_from_extension f = some .bz2 := by
  simp [detect_format_from_extension, h]

/-- A filename ending in `.xz` is detected as xz (it cannot also end in
`.bz2`). -/
lemma detect_xz_of_suffix {f : List Char} (h : suffix_xz <:+ f) :
    detect_format_from_extension f = some .xz := by
  have hb : ¬ suffix_bz2 <:+ f := fun hb =>
    absurd (List.suffix_of_suffix_length_le h hb (by decide)) (by decide)
  simp [detect_format_from_extension, h, hb]

/-- A filename ending in `.gz` is detected as gz (it cannot also end in
`.bz2` or `.xz`). -/
lemma detect_gz_of_suffix {f : List Char} (h : suffix_gz <:+ f) :
    detect_format_from_extension f = some .gz := by
  have hb : ¬ suffix_bz2 <:+ f := fun hb =>
    absurd (List.suffix_of_suffix_length_le h hb (by decide)) (by decide)
  have hx : ¬ suffix_xz <:+ f := fun hx =>
    absurd (List.suffix_of_suffix_length_le h hx (by decide)) (by decide)
  simp [detect_format_from_extension, h, hb, hx]

/-- A filename ending in `.gz` is not the special path `-`. -/
lemma ne_dash_of_gz_suffix {f : List Char} (h : suffix_gz <:+ f) : f ≠ dash := by
  intro hd
  subst hd
  exact absurd h (by decide)

/-! ### Claim C5 — extension-based detection -/

/-- Claim C5: for every filename ending in `.gz` (respectively `.bz2`,
`.xz`), extension-based detection returns gz (respectively bz2, xz)
regardless of content (the function takes only the name); for every other
filename it returns none. The match is a case-sensitive exact suffix
match, witnessed by the uppercase name `A.GZ` detecting nothing. -/
theorem c5_extension_detection :
    (∀ f : List Char,
      (suffix_gz <:+ f → detect_format_from_extension f = some Fmt.gz)
      ∧ (suffix_bz2 <:+ f → detect_format_from_extension f = some Fmt.bz2)
      ∧ (suffix_xz <:+ f → detect_format_from_extension f = some Fmt.xz)
      ∧ (¬ suffix_gz <:+ f → ¬ suffix_bz2 <:+ f → ¬ suffix_xz <:+ f →
          detect_format_from_extension f = none))
    ∧ detect_format_from_extension ['A', '.', 'G', 'Z'] = none := by
  refine ⟨fun f => ⟨detect_gz_of_suffix, detect_bz2_of_suffix, detect_xz_of_suffix,
    fun hg hb hx => ?_⟩, by decide⟩
  simp [detect_format_from_extension, hg, hb, hx]

/-- Witness for C5 at the concrete filename `f.gz`. -/
theorem c5_extension_detection_witness :
    detect_format_from_extension fgz = some Fmt.gz :=
  (c5_extension_detection.1 fgz).1 (by decide)

/-! ### Claim C4 — mode normalization and validation -/

/-- Claim C4: `xopen` normalizes `r`/`w`/`a` to `rt`/`wt`/`at` (so the
call behaves identically on the short and long spellings), and for every
mode string whose normalization is not among the six legal modes it
returns the invalid-argument `ValueError` before doing anything else (the
effect trace is empty). -/
theorem c4_mode_normalization :
    (normalize_mode mode_r = mode_rt ∧ normalize_mode mode_w = mode_wt
      ∧ normalize_mode mode_a = mode_at)
    ∧ (∀ (env : Env) (f : List Char) (lvl thr : Option Int),
        xopen env f mode_r lvl thr = xopen env f mode_rt lvl thr
        ∧ xopen env f mode_w lvl thr = xopen env f mode_wt lvl thr
        ∧ xopen env f mode_a lvl thr = xopen env f mode_at lvl thr)
    ∧ (∀ (m : List Char) (env : Env) (f : List Char) (lvl thr : Option Int),
        normalize_mode m ∉ MODES →
        xopen env f m lvl thr = (.error (.valueError .modeNotSupported), [])) := by
  refine ⟨by decide, fun env f lvl thr => ⟨rfl, rfl, rfl⟩, fun m env f lvl thr h => ?_⟩
  simp [xopen, h]

/-- Witness for C4 at the concrete illegal mode `x`. -/
theorem c4_mode_normalization_witness :
    xopen envFull fgz ['x'] none none = (.error (.valueError .modeNotSupported), []) :=
  c4_mode_normalization.2.2 ['x'] envFull fgz none none (by decide)

/-! ### Claim C10 — append modes on the special path `-` -/

/-- Claim C10: for the special path `-` with any append mode (`a`, `at`,
`ab`), `xopen` raises `KeyError` on the first mode character from the
stdin/stdout dispatch: the append mode passes mode validation (its
normalization is among the six legal modes) but neither the read nor the
write branch of the `-` dispatch handles it, so the caller gets a
`KeyError 'a'`, not a `ValueError` and not a usable stream. -/
theorem c10_dash_append_keyerror :
    ∀ (env : Env) (lvl thr : Option Int) (m : List Char),
      (m = mode_a ∨ m = mode_at ∨ m = mode_ab) →
      normalize_mode m ∈ MODES
      ∧ xopen env dash m lvl thr = (.error (.keyError 'a'), []) := by
  rintro env lvl thr m (rfl | rfl | rfl) <;> exact ⟨by decide, rfl⟩

/-- Witness for C10 at the concrete mode `ab`. -/
theorem c10_dash_append_keyerror_witness :
    xopen envFull dash mode_ab none none = (.error (.keyError 'a'), []) :=
  (c10_dash_append_keyerror envFull none none mode_ab (Or.inr (Or.inr rfl))).2

/-! ### Claim C8 — close is idempotent -/

/-- Claim C8: for every piped stream handle (reader or writer), calling
`close` a second (or any subsequent) time is a no-op: the state after the
first close has the `closed` flag set, and closing such a state returns it
unchanged, performs no effect (no wait, no terminate, no handle closes)
and raises nothing. -/
theorem c8_close_idempotent :
    ∀ (w : WriterState) (r : ReaderState),
      writer_close (writer_close w).1 = ((writer_close w).1, [], none)
      ∧ reader_close (reader_close r).1 = ((reader_close r).1, [], none) := by
  intro w r
  constructor
  · by_cases hw : w.closed <;> simp [writer_close, hw]
  · by_cases hr : r.closed <;> simp [reader_close, hr]

/-! ### Effect-trace lemmas for the gzip backend chain -/

/-- The piped writer never reads the target's existing content. -/
lemma contentProbe_free_PCW (env : Env) (p : Prog) (mode : List Char)
    (lvl : Option Int) (tf : Bool) (t : Option Int) :
    ∀ e ∈ (PipedCompressionWriter env p mode lvl tf t).2, isContentProbe e = false := by
  intro e he
  unfold PipedCompressionWriter at he
  iterate 3 (all_goals try split at he)
  all_goals simp_all [isContentProbe]
  all_goals (rcases he with rfl | rfl | rfl | rfl <;> rfl)

/-- The piped reader never reads the target's existing content itself. -/
lemma contentProbe_free_PCR (env : Env) (p : Prog) (mode : List Char)
    (tf : Bool) (t : Option Int) :
    ∀ e ∈ (PipedCompressionReader env p mode tf t).2, isContentProbe e = false := by
  intro e he
  unfold PipedCompressionReader at he
  iterate 3 (all_goals try split at he)
  all_goals simp_all [isContentProbe]

/-- The igzip probe never reads the target's existing content. -/
lemma contentProbe_free_probe (env : Env) (p : Prog) :
    ∀ e ∈ (can_read_concatenated_gz env p).2, isContentProbe e = false := by
  intro e he
  unfold can_read_concatenated_gz at he
  split at he
  all_goals simp_all [isContentProbe]

/-- The `PipedGzipReader` chain never reads the target's existing content. -/
lemma contentProbe_free_PGR (env : Env) (mode : List Char) (t : Option Int) :
    ∀ e ∈ (PipedGzipReader env mode t).2, isContentProbe e = false := by
  intro e he
  unfold PipedGzipReader at he
  split at he
  · rename_i eff heq
    rw [List.mem_append] at he
    rcases he with he | he
    · exact contentProbe_free_PCR env .pigz mode true t e (by rw [heq]; exact he)
    · exact contentProbe_free_PCR env .gzipExe mode false t e he
  · exact contentProbe_free_PCR env .pigz mode true t e he

/-- The `PipedIGzipReader` tier never reads the target's existing content. -/
lemma contentProbe_free_PIGR (env : Env) (mode : List Char) :
    ∀ e ∈ (PipedIGzipReader env mode).2, isContentProbe e = false := by
  intro e he
  unfold PipedIGzipReader at he
  split at he
  · rename_i er eff heq
    exact contentProbe_free_probe env .igzip e (by rw [heq]; exact he)
  · rename_i eff heq
    exact contentProbe_free_probe env .igzip e (by rw [heq]; exact he)
  · rename_i eff heq
    rw [List.mem_append] at he
    rcases he with he | he
    · exact contentProbe_free_probe env .igzip e (by rw [heq]; exact he)
    · exact contentProbe_free_PCR env .igzip mode false none e he

/-- The pigz-then-gzip writer chain never reads the target's existing
content. -/
lemma contentProbe_free_chain (env : Env) (mode : List Char) (lvl : Option Int)
    (t : Option Int) :
    ∀ e ∈ (gzip_writer_chain env mode lvl t).2, isContentProbe e = false := by
  intro e he
  unfold gzip_writer_chain at he
  split at he
  · rename_i eff heq
    rw [List.mem_append] at he
    rcases he with he | he
    · exact contentProbe_free_PCW env .pigz mode lvl true t e (by rw [heq]; exact he)
    · exact contentProbe_free_PCW env .gzipExe mode lvl false t e he
  · exact contentProbe_free_PCW env .pigz mode lvl true t e he

/-- The `PipedGzipWriter` tier never reads the target's existing content. -/
lemma contentProbe_free_PGW (env : Env) (mode : List Char) (lvl : Option Int)
    (t : Option Int) :
    ∀ e ∈ (PipedGzipWriter env mode lvl t).2, isContentProbe e = false := by
  intro e he
  unfold PipedGzipWriter at he
  split at he
  · rename_i l
    split at he
    · simp at he
    · exact contentProbe_free_chain env mode (some l) t e he
  · exact contentProbe_free_chain env mode none t e he

/-- The `PipedIGzipWriter` tier never reads the target's existing content. -/
lemma contentProbe_free_PIGW (env : Env) (mode : List Char) (lvl : Option Int) :
    ∀ e ∈ (PipedIGzipWriter env mode lvl).2, isContentProbe e = false := by
  intro e he
  unfold PipedIGzipWriter at he
  split at he
  · rename_i l
    split at he
    · simp at he
    · exact contentProbe_free_PCW env .igzip mode (some l) false none e he
  · exact contentProbe_free_PCW env .igzip mode none false none e he

/-- The read attempt never reads the target's existing content. -/
lemma contentProbe_free_read_attempt (env : Env) (mode : List Char) (thr : Option Int) :
    ∀ e ∈ (gz_read_attempt env mode thr).2, isContentProbe e = false := by
  intro e he
  unfold gz_read_attempt at he
  split at he
  · rename_i eff heq
    rw [List.mem_append] at he
    rcases he with he | he
    · exact contentProbe_free_PIGR env mode e (by rw [heq]; exact he)
    · exact contentProbe_free_PGR env mode thr e he
  · rename_i m eff heq
    rw [List.mem_append] at he
    rcases he with he | he
    · exact contentProbe_free_PIGR env mode e (by rw [heq]; exact he)
    · exact contentProbe_free_PGR env mode thr e he
  · exact contentProbe_free_PIGR env mode e he

/-- The write attempt never reads the target's existing content. -/
lemma contentProbe_free_write_attempt (env : Env) (mode : List Char)
    (lvl thr : Option Int) :
    ∀ e ∈ (gz_write_attempt env mode lvl thr).2, isContentProbe e = false := by
  intro e he
  unfold gz_write_attempt at he
  split at he
  · rename_i eff heq
    rw [List.mem_append] at he
    rcases he with he | he
    · exact contentProbe_free_PIGW env mode lvl e (by rw [heq]; exact he)
    · exact contentProbe_free_PGW env mode lvl thr e he
  · rename_i m eff heq
    rw [List.mem_append] at he
    rcases he with he | he
    · exact contentProbe_free_PIGW env mode lvl e (by rw [heq]; exact he)
    · exact contentProbe_free_PGW env mode lvl thr e he
  · exact contentProbe_free_PIGW env mode lvl e he

/-- The in-process `gzip.open` fallthrough has no effects at all. -/
lemma gz_in_process_effects (mode : List Char) (lvl : Option Int) :
    (gz_in_process mode lvl).2 = [] := by
  unfold gz_in_process
  split <;> rfl

/-- The full `_open_gz` selection never reads the target's existing content: all its effects
come from the probe, the piped backends and the in-process codec. -/
lemma contentProbe_free_open_gz (env : Env) (mode : List Char)
    (lvl thr : Option Int) :
    ∀ e ∈ (open_gz env mode lvl thr).2, isContentProbe e = false := by
  have hattempt : ∀ e ∈ (if hasChar 'r' mode then gz_read_attempt env mode thr
      else gz_write_attempt env mode lvl thr).2, isContentProbe e = false := by
    split
    · exact contentProbe_free_read_attempt env mode thr
    · exact contentProbe_free_write_attempt env mode lvl thr
  intro e he
  unfold open_gz at he
  split at he
  · split at he
    · rename_i eff heq
      rw [List.mem_append] at he
      rcases he with he | he
      · exact hattempt e (by rw [heq]; exact he)
      · rw [gz_in_process_effects] at he
        simp at he
    · exact hattempt e he
  · rw [gz_in_process_effects] at he
    exact absurd he (List.not_mem_nil e)

/-- Content detection always performs its stat probe. -/
lemma sniff_mem_content (env : Env) :
    Effect.sniffStat ∈ (detect_format_from_content env).2 := by
  unfold detect_format_from_content
  split
  · split <;> simp
  · simp

/-- On a path with a `.gz` extension and a legal mode, `xopen` is exactly
`_open_gz` on the normalized mode (no content sniffing happens). -/
lemma xopen_gz (env : Env) (f mode0 : List Char) (lvl thr : Option Int)
    (hm : normalize_mode mode0 ∈ MODES) (hgz : suffix_gz <:+ f) :
    xopen env f mode0 lvl thr = open_gz env (normalize_mode mode0) lvl thr := by
  have hdet := detect_gz_of_suffix hgz
  have hf := ne_dash_of_gz_suffix hgz
  unfold xopen
  rw [if_pos hm, if_neg hf, hdet]
  simp

/-- With `threads == 0`, `_open_gz` is exactly the in-process fallthrough. -/
lemma open_gz_zero (env : Env) (mode : List Char) (lvl : Option Int) :
    open_gz env mode lvl (some 0) = gz_in_process mode lvl := by
  unfold open_gz
  simp

/-! ### Claim C1 — content sniffing by mode -/

/-- For a mode containing `'w'` after normalization, `xopen` never touches
the target's existing content. -/
lemma contentProbe_free_xopen_w (env : Env) (f : List Char) (lvl thr : Option Int)
    (mode0 : List Char) (hm : normalize_mode mode0 ∈ MODES)
    (hw : hasChar 'w' (normalize_mode mode0) = true) :
    ∀ e ∈ (xopen env f mode0 lvl thr).2, isContentProbe e = false := by
  intro e he
  unfold xopen at he
  rw [if_pos hm] at he
  split at he
  · simp at he
  · rw [if_neg (fun hc => by rw [hw] at hc; exact Bool.noConfusion hc.2)] at he
    rcases hdet : detect_format_from_extension f with _ | fmt <;> rw [hdet] at he
    · simp at he
    · rcases fmt
      · simp only [List.nil_append] at he
        exact contentProbe_free_open_gz env (normalize_mode mode0) lvl thr e he
      · simp at he
      · simp at he

/-- Claim C1 (corrected form): content-based detection is skipped exactly
for the write modes. For every path and every write mode (`w`, `wt`,
`wb`), `xopen` never reads the target's existing content; but for every
append mode (`a`, `at`, `ab`) on a non-`-` path whose extension detection
yields nothing, content detection is performed. -/
theorem c1_content_detection_by_mode :
    (∀ (env : Env) (f : List Char) (lvl thr : Option Int) (mode0 : List Char),
      (mode0 = mode_w ∨ mode0 = mode_wt ∨ mode0 = mode_wb) →
      ∀ e ∈ (xopen env f mode0 lvl thr).2, isContentProbe e = false)
    ∧ (∀ (env : Env) (f : List Char) (lvl thr : Option Int) (mode0 : List Char),
      (mode0 = mode_a ∨ mode0 = mode_at ∨ mode0 = mode_ab) →
      f ≠ dash → detect_format_from_extension f = none →
      Effect.sniffStat ∈ (xopen env f mode0 lvl thr).2) := by
  constructor
  · rintro env f lvl thr mode0 (rfl | rfl | rfl) <;>
      exact contentProbe_free_xopen_w env f lvl thr _ (by decide) (by decide)
  · rintro env f lvl thr mode0 hm hf hdet
    have hsniff : Effect.sniffStat ∈ (detect_format_from_content env).2 :=
      sniff_mem_content env
    rcases hm with rfl | rfl | rfl <;>
    · unfold xopen
      rw [if_pos (by decide), if_neg hf, if_pos ⟨hdet, by decide⟩]
      rcases hc : detect_format_from_content env with ⟨det, eff⟩
      rw [hc] at hsniff
      have hsniff' : Effect.sniffStat ∈ eff := by simpa using hsniff
      rcases det with _ | fmt
      · simpa using hsniff'
      · rcases fmt <;> simp [hsniff']

/-- Counterexample to C1 as stated: with append mode `ab` on the
extensionless path `data` over a readable regular gzip-magic file, `xopen`
does read the file's first bytes to determine the format. -/
theorem c1_append_sniffs_counterexample :
    mode_ab ∈ [mode_a, mode_at, mode_ab]
    ∧ Effect.readBytes ∈ (xopen envFull fData mode_ab none none).2 := by
  constructor
  · decide
  · decide

/-- Witness for C1 (corrected form) at concrete inputs: a write-mode open
of the same path performs no content probe, an append-mode open performs
the stat probe. -/
theorem c1_content_detection_by_mode_witness :
    isContentProbe Effect.sniffStat = true
    ∧ (∀ e ∈ (xopen envFull fData mode_wb none none).2, isContentProbe e = false)
    ∧ Effect.sniffStat ∈ (xopen envFull fData mode_at none none).2 :=
  ⟨rfl,
    c1_content_detection_by_mode.1 envFull fData none none mode_wb
      (Or.inr (Or.inr rfl)),
    c1_content_detection_by_mode.2 envFull fData none none mode_at
      (Or.inr (Or.inl rfl)) (by decide) (by decide)⟩

/-! ### Claim C2 — bz2 append mode -/

/-- Claim C2 is contradicted by the code: `_open_bz2` imposes no mode
restriction and `bz2.open` of CPython 3 supports append, so append-opening
a `.bz2` path succeeds and returns an in-process bz2 stream instead of
raising an error (the `xopen` docstring, lines 460-461, promises an
error). -/
theorem c2_bz2_append_succeeds :
    xopen envFull fbz2 mode_ab none none = (.ok (.bz2InProcess mode_ab), [])
    ∧ xopen envFull fbz2 mode_at none none = (.ok (.bz2InProcess mode_at), [])
    ∧ xopen envFull fbz2 mode_a none none = (.ok (.bz2InProcess mode_at), []) := by
  refine ⟨?_, ?_, ?_⟩ <;> rfl

/-! ### Claim C6 — threads == 0 uses the in-process codec -/

/-- Effects that stand for an external process being spawned (compressor
or decompressor subprocesses, and the probe's test subprocess). -/
def isSpawnEffect : Effect → Bool
  | .spawn _ => true
  | .probeRun => true
  | _ => false

/-- Content detection spawns nothing. -/
lemma spawnFree_content (env : Env) :
    ∀ e ∈ (detect_format_from_content env).2, isSpawnEffect e = false := by
  intro e he
  unfold detect_format_from_content at he
  iterate 2 (all_goals try split at he)
  all_goals simp_all [isSpawnEffect]
  all_goals (rcases he with rfl | rfl <;> rfl)

/-- Claim C6: with `thread_count` explicitly 0, `xopen` spawns no external
subprocess whatever the path and mode; and on a gzip path with a legal
mode the resulting handle is the in-process `gzip.open` stream (with an
empty effect trace altogether). -/
theorem c6_threads_zero_in_process :
    ∀ (env : Env) (f mode0 : List Char) (lvl : Option Int),
      (∀ e ∈ (xopen env f mode0 lvl (some 0)).2, isSpawnEffect e = false)
      ∧ (suffix_gz <:+ f → normalize_mode mode0 ∈ MODES →
          (xopen env f mode0 lvl (some 0)).2 = []
          ∧ ∃ l, (xopen env f mode0 lvl (some 0)).1
              = .ok (.gzipInProcess (normalize_mode mode0) l)) := by
  intro env f mode0 lvl
  constructor
  · intro e he
    unfold xopen at he
    have hdet : ∀ x ∈ (if detect_format_from_extension f = none
        ∧ hasChar 'w' (normalize_mode mode0) = false
        then detect_format_from_content env
        else (detect_format_from_extension f, [])).2, isSpawnEffect x = false := by
      split
      · exact spawnFree_content env
      · intro x hx
        simp at hx
    split at he
    · split at he
      · simp at he
      · split at he
        · rename_i eff heq
          rw [List.mem_append, open_gz_zero, gz_in_process_effects] at he
          rcases he with he | he
          · exact hdet e (by rw [heq]; exact he)
          · simp at he
        · rename_i eff heq
          exact hdet e (by rw [heq]; exact he)
        · rename_i eff heq
          exact hdet e (by rw [heq]; exact he)
        · rename_i eff heq
          exact hdet e (by rw [heq]; exact he)
    · simp at he
  · intro hgz hm
    rw [xopen_gz env f mode0 lvl (some 0) hm hgz, open_gz_zero]
    unfold gz_in_process
    split
    · exact ⟨rfl, none, rfl⟩
    · exact ⟨rfl, some (lvl.getD 6), rfl⟩

/-- Witness for C6 at concrete inputs. -/
theorem c6_threads_zero_in_process_witness :
    (xopen envFull fgz mode_w (some 5) (some 0)).2 = []
    ∧ ∃ l, (xopen envFull fgz mode_w (some 5) (some 0)).1
        = .ok (.gzipInProcess (normalize_mode mode_w) l) :=
  (c6_threads_zero_in_process envFull fgz mode_w (some 5)).2 (by decide) (by decide)

/-! ### Claim C9 — the igzip probe is not cached -/

/-- Counterexample to C9: in a single process, each of two consecutive
read-opens of a gzip path runs the igzip correctness probe once, so the
combined trace holds two probe runs — the probe is not performed "at most
once per process lifetime". -/
theorem c9_probe_rerun_counterexample :
    probeRuns (xopen envFull fgz mode_rb none none).2 = 1
    ∧ probeRuns ((xopen envFull fgz mode_rb none none).2
        ++ (xopen envFull fgz mode_rb none none).2) = 2 := by
  constructor
  · decide
  · decide

/-- Claim C9 (corrected form): the igzip correctness probe runs on every
gzip read-open attempt that reaches the igzip tier (igzip installed,
threads not 0) — exactly once per such open, whatever the probe's outcome
and whatever fallbacks follow — so repeated read-opens re-run the probe
subprocess each time; there is no process-wide cache. -/
theorem c9_probe_runs_every_open :
    ∀ (env : Env) (f : List Char) (lvl thr : Option Int) (mode0 : List Char),
      env.igzipInstalled = true → thr ≠ some 0 → suffix_gz <:+ f →
      (mode0 = mode_r ∨ mode0 = mode_rt ∨ mode0 = mode_rb) →
      probeRuns (xopen env f mode0 lvl thr).2 = 1 := by
  intro env f lvl thr mode0 hig hthr hgz hm
  have hm' : normalize_mode mode0 ∈ MODES := by
    rcases hm with rfl | rfl | rfl <;> decide
  rw [xopen_gz env f mode0 lvl thr hm' hgz]
  unfold open_gz
  rw [if_pos hthr]
  obtain ⟨ig, pz, gzi, ck, st, reg, mg, cpu⟩ := env
  simp only at hig
  subst hig
  rcases hm with rfl | rfl | rfl <;> cases pz <;> cases gzi <;> cases ck <;>
    simp [gz_read_attempt, PipedIGzipReader, can_read_concatenated_gz,
      PipedCompressionReader, PipedGzipReader, installed, gz_in_process,
      probeRuns, hasChar, PIPE_READ_MODES, normalize_mode,
      mode_r, mode_rt, mode_rb, mode_w, mode_a]

/-- Witness for C9 (corrected form) at concrete inputs. -/
theorem c9_probe_runs_every_open_witness :
    probeRuns (xopen envFull fgz mode_rt none none).2 = 1 :=
  c9_probe_runs_every_open envFull fgz none none mode_rt (by decide) (by decide)
    (by decide) (Or.inr (Or.inl rfl))

/-! ### Claim C3 — gzip write compression-level validation -/

/-- Counterexample to C3 as stated: compression level 0 is outside 1..9,
yet write-opening a `.gz` path with igzip available raises nothing — the
igzip backend accepts level 0 and a subprocess is spawned. -/
theorem c3_level_zero_spawns_igzip :
    ((0:Int) < 1 ∨ 9 < (0:Int))
    ∧ (xopen envFull fgz mode_wb (some 0) none).1
        = .ok (.pipedWriter .igzip (some 0) 4 mode_wb)
    ∧ Effect.spawn .igzip ∈ (xopen envFull fgz mode_wb (some 0) none).2 := by
  refine ⟨Or.inl (by decide), rfl, by decide⟩

/-- Claim C3 (corrected form): when write-opening a gzip path with
external backends enabled (threads not 0), a compression level outside
0..9 raises `ValueError` with an empty effect trace (so before any
subprocess and before any file resource); a level within 4..9 merely
skips the igzip backend — the open succeeds through a non-igzip tier and
no igzip process is spawned; level 0 is accepted by the igzip backend
when igzip is installed, and raises the general backend's `ValueError`
only when igzip is unavailable. -/
theorem c3_gzip_write_level_validation :
    ∀ (env : Env) (f mode0 : List Char) (lvl : Int) (thr : Option Int),
      suffix_gz <:+ f → (mode0 = mode_w ∨ mode0 = mode_wt ∨ mode0 = mode_wb) →
      thr ≠ some 0 →
      ((lvl < 0 ∨ 9 < lvl) →
        xopen env f mode0 (some lvl) thr
          = (.error (.valueError .levelBetween1and9), []))
      ∧ ((4 ≤ lvl ∧ lvl ≤ 9) →
        (∃ h, (xopen env f mode0 (some lvl) thr).1 = .ok h)
        ∧ ∀ e ∈ (xopen env f mode0 (some lvl) thr).2, e ≠ Effect.spawn .igzip)
      ∧ (lvl = 0 → env.igzipInstalled = true →
        ∃ t, (xopen env f mode0 (some lvl) thr).1
          = .ok (.pipedWriter .igzip (some 0) t (normalize_mode mode0)))
      ∧ (lvl = 0 → env.igzipInstalled = false →
        (xopen env f mode0 (some lvl) thr).1
          = .error (.valueError .levelBetween1and9)) := by
  intro env f mode0 lvl thr hgz hm hthr
  have hm' : normalize_mode mode0 ∈ MODES := by
    rcases hm with rfl | rfl | rfl <;> decide
  rw [xopen_gz env f mode0 (some lvl) thr hm' hgz]
  unfold open_gz
  rw [if_pos hthr]
  refine ⟨?_, ?_, ?_, ?_⟩
  · intro hl
    have h03 : lvl < 0 ∨ 3 < lvl := by omega
    have h19 : lvl < 1 ∨ 9 < lvl := by omega
    rcases hm with rfl | rfl | rfl <;>
      simp [gz_write_attempt, PipedIGzipWriter, PipedGzipWriter, h03, h19,
        hasChar, normalize_mode, mode_w, mode_wt, mode_wb, mode_r, mode_a]
  · rintro ⟨h4, h9⟩
    have h03 : lvl < 0 ∨ 3 < lvl := Or.inr (by omega)
    have hn19 : ¬(lvl < 1 ∨ 9 < lvl) := by omega
    obtain ⟨ig, pz, gzi, ck, st, reg, mg, cpu⟩ := env
    rcases hm with rfl | rfl | rfl <;> cases pz <;> cases gzi <;>
      simp [gz_write_attempt, PipedIGzipWriter, PipedGzipWriter,
        gzip_writer_chain, PipedCompressionWriter, installed, gz_in_process,
        hasChar, PIPE_WRITE_MODES, normalize_mode,
        mode_w, mode_wt, mode_wb, mode_r, mode_a, h03, hn19]
  · rintro rfl hig
    have hn03 : ¬((0:Int) < 0 ∨ 3 < (0:Int)) := by omega
    obtain ⟨ig, pz, gzi, ck, st, reg, mg, cpu⟩ := env
    simp only at hig
    subst hig
    rcases hm with rfl | rfl | rfl <;>
      simp [gz_write_attempt, PipedIGzipWriter, PipedCompressionWriter,
        installed, hasChar, PIPE_WRITE_MODES, normalize_mode,
        mode_w, mode_wt, mode_wb, mode_r, mode_a, hn03]
  · rintro rfl hig
    have hn03 : ¬((0:Int) < 0 ∨ 3 < (0:Int)) := by omega
    have h19 : (0:Int) < 1 ∨ 9 < (0:Int) := Or.inl (by omega)
    obtain ⟨ig, pz, gzi, ck, st, reg, mg, cpu⟩ := env
    simp only at hig
    subst hig
    rcases hm with rfl | rfl | rfl <;>
      simp [gz_write_attempt, PipedIGzipWriter, PipedGzipWriter,
        PipedCompressionWriter, installed, hasChar, PIPE_WRITE_MODES,
        normalize_mode, mode_w, mode_wt, mode_wb, mode_r, mode_a, hn03, h19]

/-- Witness for C3 (corrected form) at concrete inputs. -/
theorem c3_gzip_write_level_validation_witness :
    xopen envFull fgz mode_wt (some 10) none
      = (.error (.valueError .levelBetween1and9), []) :=
  (c3_gzip_write_level_validation envFull fgz mode_wt 10 none (by decide)
    (Or.inr (Or.inl rfl)) (by decide)).1 (Or.inr (by decide))

/-! ### Claim C7 — in-process gzip default level -/

/-- A piped writer construction never yields an in-process gzip handle. -/
lemma PCW_not_inproc (env : Env) (p : Prog) (mode : List Char)
    (lvl : Option Int) (tf : Bool) (t : Option Int) (m : List Char) (l : Option Int) :
    (PipedCompressionWriter env p mode lvl tf t).1 ≠ .ok (.gzipInProcess m l) := by
  unfold PipedCompressionWriter
  iterate 3 (all_goals try split)
  all_goals simp

/-- The pigz-then-gzip writer chain never yields an in-process gzip
handle. -/
lemma chain_not_inproc (env : Env) (mode : List Char) (lvl : Option Int)
    (t : Option Int) (m : List Char) (l : Option Int) :
    (gzip_writer_chain env mode lvl t).1 ≠ .ok (.gzipInProcess m l) := by
  unfold gzip_writer_chain
  split
  · exact PCW_not_inproc env .gzipExe mode lvl false t m l
  · exact PCW_not_inproc env .pigz mode lvl true t m l

/-- The `PipedGzipWriter` tier never yields an in-process gzip handle. -/
lemma PGW_not_inproc (env : Env) (mode : List Char) (lvl : Option Int)
    (t : Option Int) (m : List Char) (l : Option Int) :
    (PipedGzipWriter env mode lvl t).1 ≠ .ok (.gzipInProcess m l) := by
  unfold PipedGzipWriter
  split
  · rename_i lv
    split
    · simp
    · exact chain_not_inproc env mode (some lv) t m l
  · exact chain_not_inproc env mode none t m l

/-- The `PipedIGzipWriter` tier never yields an in-process gzip handle. -/
lemma PIGW_not_inproc (env : Env) (mode : List Char) (lvl : Option Int)
    (m : List Char) (l : Option Int) :
    (PipedIGzipWriter env mode lvl).1 ≠ .ok (.gzipInProcess m l) := by
  unfold PipedIGzipWriter
  split
  · rename_i lv
    split
    · simp
    · exact PCW_not_inproc env .igzip mode (some lv) false none m l
  · exact PCW_not_inproc env .igzip mode none false none m l

/-- The write attempt never yields an in-process gzip handle. -/
lemma write_attempt_not_inproc (env : Env) (mode : List Char) (lvl thr : Option Int)
    (m : List Char) (l : Option Int) :
    (gz_write_attempt env mode lvl thr).1 ≠ .ok (.gzipInProcess m l) := by
  unfold gz_write_attempt
  split
  · exact PGW_not_inproc env mode lvl thr m l
  · exact PGW_not_inproc env mode lvl thr m l
  · exact PIGW_not_inproc env mode lvl m l

/-- Claim C7: whenever `_open_gz` falls through to the in-process
`gzip.open` for a non-read mode, the compression level passed to the
codec is 6 when the caller gave none — not the codec's own default of 9 —
and the caller's level unchanged otherwise. -/
theorem c7_in_process_write_level :
    ∀ (env : Env) (mode : List Char) (lvl thr : Option Int)
      (m : List Char) (l : Option Int),
      (open_gz env mode lvl thr).1 = .ok (.gzipInProcess m l) →
      hasChar 'r' mode = false →
      l = some (lvl.getD 6)
      ∧ (lvl = none → l = some 6 ∧ l ≠ some 9)
      ∧ (∀ c, lvl = some c → l = some c) := by
  intro env mode lvl thr m l h hw
  have hfall : (gz_in_process mode lvl).1 = .ok (.gzipInProcess mode (some (lvl.getD 6))) := by
    unfold gz_in_process
    rw [hw]
    simp
  have hl : l = some (lvl.getD 6) := by
    unfold open_gz at h
    split at h
    · rw [if_neg (by simp [hw])] at h
      split at h
      · rw [hfall] at h
        simp at h
        exact h.2.symm
      · exact absurd h (write_attempt_not_inproc env mode lvl thr m l)
    · rw [hfall] at h
      simp at h
      exact h.2.symm
  refine ⟨hl, ?_, ?_⟩
  · rintro rfl
    exact ⟨hl, by rw [hl]; simp⟩
  · rintro c rfl
    exact hl

/-- Witness for C7 at concrete inputs: with no caller level and
`threads=0`, the in-process writer is handed level 6 (and not 9). -/
theorem c7_in_process_write_level_witness :
    (some 6 : Option Int) = some ((none : Option Int).getD 6)
    ∧ ((some 6 : Option Int) = some 6 ∧ (some 6 : Option Int) ≠ some 9) :=
  ⟨(c7_in_process_write_level envFull mode_wb none (some 0) mode_wb (some 6)
      rfl (by decide)).1,
    (c7_in_process_write_level envFull mode_wb none (some 0) mode_wb (some 6)
      rfl (by decide)).2.1 rfl⟩

end Xopen
